import Mathlib

/-!
Verification development for `gsplat/project_gaussians.py`, the Python
autograd-registration layer of a 3D-gaussian-splatting projector.

Scalars are modelled as rationals, tensors as lists of fixed-size vectors
(`Fin n → ℚ`), except `means3d`, whose dynamic shape the code inspects and
which is therefore modelled as a shaped tensor.  The CUDA kernels
(`_C.project_gaussians_forward`, `_C.project_gaussians_backward`) and the
covariance builder `scale_rot_to_cov3d` are not part of the source file;
the Python wrappers are parameterised over them, and where a property
depends on the missing code a definition modelled from the specification
is supplied and marked as such.
-/

abbrev Vec3 := Fin 3 → ℚ

abbrev Vec4 := Fin 4 → ℚ

abbrev Mat3 := Fin 3 → Fin 3 → ℚ

abbrev Mat4 := Fin 4 → Fin 4 → ℚ

abbrev Triu6 := Fin 6 → ℚ

/-- A tensor whose shape the Python code inspects: a shape list plus flat data. -/
structure PyTensor where
  shape : List ℕ
  data : List ℚ
deriving DecidableEq

/-- Errors a call can surface.  The spec's `InvalidInput` kind covers bad
tensor shapes (`ValueError`), failed preconditions (`AssertionError`) and
out-of-range `block_width`; a Python `IndexError` from negative indexing a
too-short shape list is not one of those. -/
inductive PyError where
  | assertionError (msg : String)
  | valueError (shape : List ℕ)
  | indexError
  | invalidInput (msg : String)
deriving DecidableEq

/-- Whether an error is of the spec's `InvalidInput` kind. -/
def PyError.isInvalidInput : PyError → Bool
  | .indexError => false
  | _ => true

/-- The six per-primitive output streams of the forward pass. -/
structure ForwardOutputs where
  xys : List (Fin 2 → ℚ)
  depths : List ℚ
  radii : List ℕ
  conics : List (Fin 3 → ℚ)
  compensation : List ℚ
  numTilesHit : List ℕ
deriving DecidableEq

/-- Signature of `_C.project_gaussians_forward` (the CUDA forward kernel). -/
abbrev ForwardKernel :=
  ℕ → PyTensor → List Triu6 → Mat4 → ℚ → ℚ → ℚ → ℚ → ℕ → ℕ → ℕ → ℚ →
    Except PyError ForwardOutputs

/-- Signature of `scale_rot_to_cov3d` (the covariance builder, imported from
`gsplat._torch_impl`): scales, global scale, quaternions to 3×3 covariances. -/
abbrev Builder := List Vec3 → ℚ → List Vec4 → List Mat3

/-- `pack_cov3d_triu`: the six upper-triangular entries (xx,xy,xz,yy,yz,zz),
in that fixed order, of one 3×3 covariance matrix (the source applies this
over the batch dimensions; the batch form is `List.map pack_cov3d_triu`). -/
def pack_cov3d_triu (cov3d : Mat3) : Triu6 :=
  ![cov3d 0 0, cov3d 0 1, cov3d 0 2, cov3d 1 1, cov3d 1 2, cov3d 2 2]

/-- Modelled from the spec: the consumer-side reconstruction of the full
symmetric 3×3 matrix from the packed (xx,xy,xz,yy,yz,zz) form.  The
reconstruction lives in the CUDA consumer of the packed wire format, which
is not under src/; the spec fixes the packing order as the wire contract. -/
def unpack_cov3d_triu (t : Triu6) : Mat3 :=
  ![![t 0, t 1, t 2], ![t 1, t 3, t 4], ![t 2, t 4, t 5]]

/-- `_ProjectGaussians.forward`: validates the shape of `means3d`
(`num_points = shape[-2]`, last dimension must be 3) and dispatches to the
CUDA forward kernel.  Python's negative indexing raises `IndexError` when
the shape has fewer than two entries. -/
def ProjectGaussians.forward (kernel : ForwardKernel) (means3d : PyTensor)
    (cov3dTriu : List Triu6) (viewmat : Mat4) (fx fy cx cy : ℚ)
    (imgHeight imgWidth blockWidth : ℕ) (clipThresh : ℚ) :
    Except PyError ForwardOutputs :=
  if 2 ≤ means3d.shape.length then
    let numPoints := means3d.shape.getD (means3d.shape.length - 2) 0
    let lastDim := means3d.shape.getD (means3d.shape.length - 1) 0
    if numPoints < 1 ∨ lastDim ≠ 3 then
      .error (.valueError means3d.shape)
    else
      kernel numPoints means3d cov3dTriu viewmat fx fy cx cy
        imgHeight imgWidth blockWidth clipThresh
  else
    .error .indexError

/-- `project_gaussians_given_cov3d`: packs the covariances, runs the autograd
forward, and appends the full 3D covariance as the last tuple element. -/
def project_gaussians_given_cov3d (kernel : ForwardKernel) (means3d : PyTensor)
    (cov3d : List Mat3) (viewmat : Mat4) (fx fy cx cy : ℚ)
    (imgHeight imgWidth blockWidth : ℕ) (clipThresh : ℚ) :
    Except PyError (ForwardOutputs × List Mat3) :=
  let cov3dTriu := cov3d.map pack_cov3d_triu
  (ProjectGaussians.forward kernel means3d cov3dTriu viewmat fx fy cx cy
      imgHeight imgWidth blockWidth clipThresh).map
    (fun o => (o, cov3d))

/-- The source's quaternion precondition, `(quats.norm(dim=-1) - 1 < 1e-6).all()`.
Over the reals, `‖q‖ - 1 < 1e-6` is equivalent to `‖q‖² < (1 + 1e-6)²`,
which is how it is phrased here to stay inside ℚ.  Note the check is
one-sided: it only bounds the norm from above. -/
def quatNormCheck (quats : List Vec4) : Bool :=
  quats.all fun q =>
    q 0 ^ 2 + q 1 ^ 2 + q 2 ^ 2 + q 3 ^ 2 < (1 + 1 / 1000000) ^ 2

/-- `project_gaussians`: asserts `block_width` is in range and the quaternion
check passes, builds the 3D covariance with the covariance builder, then
delegates to `project_gaussians_given_cov3d`. -/
def project_gaussians (kernel : ForwardKernel) (builder : Builder)
    (means3d : PyTensor) (scales : List Vec3) (globScale : ℚ)
    (quats : List Vec4) (viewmat : Mat4) (fx fy cx cy : ℚ)
    (imgHeight imgWidth blockWidth : ℕ) (clipThresh : ℚ) :
    Except PyError (ForwardOutputs × List Mat3) :=
  if ¬ (1 < blockWidth ∧ blockWidth ≤ 16) then
    .error (.assertionError "block_width must be between 2 and 16")
  else if ¬ quatNormCheck quats then
    .error (.assertionError "quats must be normalized")
  else
    project_gaussians_given_cov3d kernel means3d (builder scales globScale quats)
      viewmat fx fy cx cy imgHeight imgWidth blockWidth clipThresh

/-! ### Spec-modelled per-primitive projection

The per-primitive forward computation lives in the CUDA kernel, which is
not under src/.  The definitions below model it from the spec: view
transform and pinhole projection with near-plane culling (§4.2), EWA
covariance projection with +0.3 low-pass regularisation, determinant-ratio
compensation and closed-form 2×2 inversion (§4.3), and a conservative
3-standard-deviation integer radius with tile counting over the clipped
bounding box (§4.4). -/

/-- Camera parameters handed to the per-primitive projection. -/
structure SpecCamera where
  viewmat : Mat4
  fx : ℚ
  fy : ℚ
  cx : ℚ
  cy : ℚ
  imgHeight : ℕ
  imgWidth : ℕ
  blockWidth : ℕ
  clipThresh : ℚ
deriving DecidableEq

/-- One projected primitive. -/
structure ProjOut where
  xy : Fin 2 → ℚ
  depth : ℚ
  radius : ℕ
  conic : Fin 3 → ℚ
  comp : ℚ
  tiles : ℕ
deriving DecidableEq

/-- Modelled from the spec: apply the 4×4 rigid view transform to a point,
producing camera-space coordinates (rotation block times point plus
translation column). -/
def transformPoint (W : Mat4) (p : Vec3) : Vec3 :=
  ![W 0 0 * p 0 + W 0 1 * p 1 + W 0 2 * p 2 + W 0 3,
    W 1 0 * p 0 + W 1 1 * p 1 + W 1 2 * p 2 + W 1 3,
    W 2 0 * p 0 + W 2 1 * p 1 + W 2 2 * p 2 + W 2 3]

/-- Modelled from the spec: pinhole projection of a camera-space point to
pixel coordinates, `px = fx·x/z + cx`, `py = fy·y/z + cy`. -/
def projectPix (cam : SpecCamera) (p : Vec3) : Fin 2 → ℚ :=
  ![cam.fx * p 0 / p 2 + cam.cx, cam.fy * p 1 / p 2 + cam.cy]

/-- Rotation block of the view matrix (top-left 3×3). -/
def viewRot (W : Mat4) : Mat3 :=
  ![![W 0 0, W 0 1, W 0 2], ![W 1 0, W 1 1, W 1 2], ![W 2 0, W 2 1, W 2 2]]

/-- Modelled from the spec: the 2D covariance `J · R · Σ · Rᵗ · Jᵗ`
truncated to a 2×2 block, returned as its (xx, xy, yy) entries, with `J`
the perspective Jacobian at the camera-space position. -/
def cov2dOf (cam : SpecCamera) (p : Vec3) (V : Mat3) : ℚ × ℚ × ℚ :=
  let z := p 2
  let J : Fin 2 → Fin 3 → ℚ :=
    ![![cam.fx / z, 0, -(cam.fx * p 0) / z ^ 2],
      ![0, cam.fy / z, -(cam.fy * p 1) / z ^ 2]]
  let R := viewRot cam.viewmat
  let T : Fin 2 → Fin 3 → ℚ :=
    fun i j => J i 0 * R 0 j + J i 1 * R 1 j + J i 2 * R 2 j
  let M : Fin 2 → Fin 3 → ℚ :=
    fun i j => T i 0 * V 0 j + T i 1 * V 1 j + T i 2 * V 2 j
  let C : Fin 2 → Fin 2 → ℚ :=
    fun i j => M i 0 * T j 0 + M i 1 * T j 1 + M i 2 * T j 2
  (C 0 0, C 0 1, C 1 1)

/-- Least natural number whose square is at least `q` (0 for negative `q`). -/
def natCeilSqrt (q : ℚ) : ℕ :=
  let n := (⌈q⌉).toNat
  let s := Nat.sqrt n
  if n ≤ s * s then s else s + 1

/-- Clamp an integer into `[lo, hi]`. -/
def clampInt (v lo hi : ℤ) : ℤ :=
  max lo (min v hi)

/-- Modelled from the spec: count of tiles whose footprint intersects the
bounding box `[xy - r, xy + r]`, clipped to the image bounds; primitives
entirely outside the image get zero. -/
def tileCount (cam : SpecCamera) (xy : Fin 2 → ℚ) (r : ℕ) : ℕ :=
  let bw : ℚ := (cam.blockWidth : ℚ)
  let tilesX : ℤ := ((cam.imgWidth + cam.blockWidth - 1) / cam.blockWidth : ℕ)
  let tilesY : ℤ := ((cam.imgHeight + cam.blockWidth - 1) / cam.blockWidth : ℕ)
  let xmin := clampInt ⌊(xy 0 - (r : ℚ)) / bw⌋ 0 tilesX
  let xmax := clampInt ⌈(xy 0 + (r : ℚ)) / bw⌉ 0 tilesX
  let ymin := clampInt ⌊(xy 1 - (r : ℚ)) / bw⌋ 0 tilesY
  let ymax := clampInt ⌈(xy 1 + (r : ℚ)) / bw⌉ 0 tilesY
  (xmax - xmin).toNat * (ymax - ymin).toNat

/-- Modelled from the spec: the non-culled EWA projection of one primitive
whose camera-space position passed the near-clip test.  Adds +0.3 to the
2D covariance diagonal, culls (radius 0) when the regularised determinant
is non-positive, otherwise inverts the 2×2 covariance to conic form, takes
the determinant ratio as compensation, and estimates radius and tiles. -/
def ewaBody (cam : SpecCamera) (pcam : Vec3) (triu : Triu6) : ProjOut :=
  let V := unpack_cov3d_triu triu
  let c2 := cov2dOf cam pcam V
  let a := c2.1
  let b := c2.2.1
  let c := c2.2.2
  let aReg := a + 3 / 10
  let cReg := c + 3 / 10
  let detBlur := aReg * cReg - b ^ 2
  let xy := projectPix cam pcam
  if detBlur ≤ 0 then
    { xy := xy, depth := pcam 2, radius := 0, conic := ![0, 0, 0],
      comp := 0, tiles := 0 }
  else
    let r := natCeilSqrt (9 * max aReg cReg)
    { xy := xy, depth := pcam 2, radius := r,
      conic := ![cReg / detBlur, -b / detBlur, aReg / detBlur],
      comp := (a * c - b ^ 2) / detBlur,
      tiles := tileCount cam xy r }

/-- Modelled from the spec: project one primitive.  If the camera-space
depth is below `clip_thresh` the primitive is culled — radius 0 and zero
tiles, with xy and depth still computed — otherwise the EWA body runs. -/
def projectPrimitive (cam : SpecCamera) (mean : Vec3) (triu : Triu6) : ProjOut :=
  let pcam := transformPoint cam.viewmat mean
  if pcam 2 < cam.clipThresh then
    { xy := projectPix cam pcam, depth := pcam 2, radius := 0,
      conic := ![0, 0, 0], comp := 0, tiles := 0 }
  else
    ewaBody cam pcam triu

/-- Group a flat data list into 3-vectors (rows of an `[N, 3]` tensor). -/
def chunk3 : List ℚ → List Vec3
  | x :: y :: z :: rest => ![x, y, z] :: chunk3 rest
  | _ => []

/-- Modelled from the spec: `_C.project_gaussians_forward`, the CUDA forward
entry, which is not under src/.  Per the spec it rejects an out-of-range
`block_width` (InvalidInput, detected eagerly before any per-primitive
work) and otherwise maps the per-primitive projection over the batch. -/
def cudaForwardKernel : ForwardKernel :=
  fun _numPoints means3d cov3dTriu viewmat fx fy cx cy ih iw bw clip =>
    if bw < 2 ∨ 16 < bw then
      .error (.invalidInput "block_width out of range")
    else
      let cam : SpecCamera :=
        ⟨viewmat, fx, fy, cx, cy, ih, iw, bw, clip⟩
      let outs := (List.zip (chunk3 means3d.data) cov3dTriu).map
        (fun mc => projectPrimitive cam mc.1 mc.2)
      .ok { xys := outs.map (·.xy), depths := outs.map (·.depth),
            radii := outs.map (·.radius), conics := outs.map (·.conic),
            compensation := outs.map (·.comp), numTilesHit := outs.map (·.tiles) }

/-! ### The backward pass -/

/-- The autograd context: non-tensor attributes stored on `ctx` plus the
tensors handed to `save_for_backward`, together with whether the view
matrix is flagged as requiring gradients. -/
structure BackwardCtx where
  numPoints : ℕ
  means3d : PyTensor
  viewmat : Mat4
  viewmatRequiresGrad : Bool
  cov3dTriu : List Triu6
  radii : List ℕ
  conics : List (Fin 3 → ℚ)
  compensation : List ℚ
  fx : ℚ
  fy : ℚ
  cx : ℚ
  cy : ℚ
  imgHeight : ℕ
  imgWidth : ℕ

/-- Signature of `_C.project_gaussians_backward` (the CUDA backward kernel):
saved forward arguments and intermediates plus the incoming gradients
`v_xys, v_depths, v_conics, v_compensation`, returning
`(v_cov2d, v_cov3d, v_mean3d)`. -/
abbrev BackwardKernel :=
  ℕ → PyTensor → List Triu6 → Mat4 → ℚ → ℚ → ℚ → ℚ → ℕ → ℕ →
    List ℕ → List (Fin 3 → ℚ) → List ℚ →
    List (Fin 2 → ℚ) → List ℚ → List (Fin 3 → ℚ) → List ℚ →
    List (Fin 3 → ℚ) × List Triu6 × List Vec3

/-- Signature of the view-matrix gradient computation.  Its body is elided
in the source (a truncated comment); per the spec (§4.5, §9) it is a pure
function of the saved forward intermediates, the four differentiable
output gradients, and the kernel's results, producing a 4×4 gradient. -/
abbrev ViewmatGradFn :=
  BackwardCtx → List (Fin 2 → ℚ) → List ℚ → List (Fin 3 → ℚ) → List ℚ →
    List (Fin 3 → ℚ) × List Triu6 × List Vec3 → Mat4

/-- The gradients `_ProjectGaussians.backward` returns: one slot per forward
input, in order.  The non-tensor inputs get `Option` slots so that the
explicit Python `None` (no gradient) is representable. -/
structure BackwardOut where
  v_mean3d : List Vec3
  v_cov3d : List Triu6
  v_viewmat : Option Mat4
  v_fx : Option ℚ
  v_fy : Option ℚ
  v_cx : Option ℚ
  v_cy : Option ℚ
  v_imgHeight : Option ℕ
  v_imgWidth : Option ℕ
  v_blockWidth : Option ℕ
  v_clipThresh : Option ℚ

/-- `_ProjectGaussians.backward`: calls the CUDA backward kernel with the
saved context and the gradients for xys, depths, conics and compensation
(the gradients received for radii and num_tiles_hit are never used),
computes a view-matrix gradient only when the view matrix requires one
(`None` otherwise), and returns `None` for every non-tensor input. -/
def ProjectGaussians.backward (bkernel : BackwardKernel) (vgrad : ViewmatGradFn)
    (ctx : BackwardCtx) (v_xys : List (Fin 2 → ℚ)) (v_depths : List ℚ)
    (v_radii : List ℚ) (v_conics : List (Fin 3 → ℚ))
    (v_compensation : List ℚ) (v_numTilesHit : List ℚ) : BackwardOut :=
  let kres := bkernel ctx.numPoints ctx.means3d ctx.cov3dTriu ctx.viewmat
    ctx.fx ctx.fy ctx.cx ctx.cy ctx.imgHeight ctx.imgWidth
    ctx.radii ctx.conics ctx.compensation
    v_xys v_depths v_conics v_compensation
  let v_viewmat : Option Mat4 :=
    if ctx.viewmatRequiresGrad then
      some (vgrad ctx v_xys v_depths v_conics v_compensation kres)
    else
      none
  { v_mean3d := kres.2.2, v_cov3d := kres.2.1, v_viewmat := v_viewmat,
    v_fx := none, v_fy := none, v_cx := none, v_cy := none,
    v_imgHeight := none, v_imgWidth := none, v_blockWidth := none,
    v_clipThresh := none }

/-! ### Concrete instantiations used to evaluate the theorems -/

/-- A forward kernel producing empty outputs, used to instantiate
kernel-polymorphic theorems at a concrete point. -/
def trivForward : ForwardKernel :=
  fun _ _ _ _ _ _ _ _ _ _ _ _ => .ok ⟨[], [], [], [], [], []⟩

/-- A backward kernel producing empty gradients. -/
def trivBackward : BackwardKernel :=
  fun _ _ _ _ _ _ _ _ _ _ _ _ _ _ _ _ _ => ([], [], [])

/-- A view-matrix gradient function producing the zero matrix. -/
def trivVGrad : ViewmatGradFn :=
  fun _ _ _ _ _ _ => fun _ _ => 0

/-- A covariance builder producing an empty batch. -/
def trivBuilder : Builder :=
  fun _ _ _ => []

/-- A concrete symmetric 3×3 matrix. -/
def symMat : Mat3 :=
  ![![1, 2, 3], ![2, 4, 5], ![3, 5, 6]]

/-- A concrete backward context whose view matrix requires gradients. -/
def ctxGradW : BackwardCtx :=
  ⟨1, ⟨[1, 3], [0, 0, 0]⟩, fun _ _ => 0, true, [], [], [], [], 1, 1, 0, 0, 16, 16⟩

/-! ### The claims -/

/-- Claim C6: for every symmetric 3×3 matrix `M`, `pack_cov3d_triu M` is
exactly `(M 0 0, M 0 1, M 0 2, M 1 1, M 1 2, M 2 2)` in that order, and
reconstructing the symmetric matrix from the six packed values recovers
`M` exactly. -/
theorem pack_cov3d_triu_roundtrip (M : Mat3) (hsym : ∀ i j, M i j = M j i) :
    pack_cov3d_triu M = ![M 0 0, M 0 1, M 0 2, M 1 1, M 1 2, M 2 2] ∧
    unpack_cov3d_triu (pack_cov3d_triu M) = M := by
  refine ⟨rfl, ?_⟩
  funext i j
  fin_cases i <;> fin_cases j <;>
    simp [unpack_cov3d_triu, pack_cov3d_triu] <;>
    exact hsym _ _

/-- Evaluation of `pack_cov3d_triu_roundtrip` on a concrete symmetric matrix. -/
theorem pack_cov3d_triu_roundtrip_witness :
    (∀ i j, symMat i j = symMat j i) ∧
    (pack_cov3d_triu symMat =
        ![symMat 0 0, symMat 0 1, symMat 0 2, symMat 1 1, symMat 1 2, symMat 2 2] ∧
      unpack_cov3d_triu (pack_cov3d_triu symMat) = symMat) :=
  ⟨by decide, pack_cov3d_triu_roundtrip symMat (by decide)⟩

/-- Claim C5: two backward calls agreeing on the saved context and on the
gradients for xys, depths, conics and compensation, but differing
arbitrarily in the incoming gradients for radii and num_tiles_hit, return
identical gradients — no gradient flows through radius or num_tiles_hit. -/
theorem backward_ignores_radii_tiles_grads
    (bkernel : BackwardKernel) (vgrad : ViewmatGradFn) (ctx : BackwardCtx)
    (v_xys : List (Fin 2 → ℚ)) (v_depths : List ℚ)
    (v_conics : List (Fin 3 → ℚ)) (v_compensation : List ℚ)
    (vr₁ vr₂ vt₁ vt₂ : List ℚ) :
    ProjectGaussians.backward bkernel vgrad ctx
        v_xys v_depths vr₁ v_conics v_compensation vt₁ =
      ProjectGaussians.backward bkernel vgrad ctx
        v_xys v_depths vr₂ v_conics v_compensation vt₂ := rfl

/-- Claim C9: every backward call returns the explicit no-gradient signal
(`None`) for fx, fy, cx, cy, img_height, img_width, block_width and
clip_thresh. -/
theorem backward_no_grad_for_scalars
    (bkernel : BackwardKernel) (vgrad : ViewmatGradFn) (ctx : BackwardCtx)
    (v_xys : List (Fin 2 → ℚ)) (v_depths v_radii : List ℚ)
    (v_conics : List (Fin 3 → ℚ)) (v_compensation v_numTilesHit : List ℚ) :
    (ProjectGaussians.backward bkernel vgrad ctx
        v_xys v_depths v_radii v_conics v_compensation v_numTilesHit).v_fx = none ∧
    (ProjectGaussians.backward bkernel vgrad ctx
        v_xys v_depths v_radii v_conics v_compensation v_numTilesHit).v_fy = none ∧
    (ProjectGaussians.backward bkernel vgrad ctx
        v_xys v_depths v_radii v_conics v_compensation v_numTilesHit).v_cx = none ∧
    (ProjectGaussians.backward bkernel vgrad ctx
        v_xys v_depths v_radii v_conics v_compensation v_numTilesHit).v_cy = none ∧
    (ProjectGaussians.backward bkernel vgrad ctx
        v_xys v_depths v_radii v_conics v_compensation v_numTilesHit).v_imgHeight = none ∧
    (ProjectGaussians.backward bkernel vgrad ctx
        v_xys v_depths v_radii v_conics v_compensation v_numTilesHit).v_imgWidth = none ∧
    (ProjectGaussians.backward bkernel vgrad ctx
        v_xys v_depths v_radii v_conics v_compensation v_numTilesHit).v_blockWidth = none ∧
    (ProjectGaussians.backward bkernel vgrad ctx
        v_xys v_depths v_radii v_conics v_compensation v_numTilesHit).v_clipThresh = none :=
  ⟨rfl, rfl, rfl, rfl, rfl, rfl, rfl, rfl⟩

/-- Claim C4: backward returns a 4×4 view-matrix gradient exactly when the
view matrix is flagged as requiring gradients, and the explicit
no-gradient signal (`None`, not an error) when it is not. -/
theorem viewmat_grad_optional
    (bkernel : BackwardKernel) (vgrad : ViewmatGradFn) (ctx : BackwardCtx)
    (v_xys : List (Fin 2 → ℚ)) (v_depths v_radii : List ℚ)
    (v_conics : List (Fin 3 → ℚ)) (v_compensation v_numTilesHit : List ℚ) :
    (ctx.viewmatRequiresGrad = true →
      ∃ M : Mat4, (ProjectGaussians.backward bkernel vgrad ctx
        v_xys v_depths v_radii v_conics v_compensation v_numTilesHit).v_viewmat = some M) ∧
    (ctx.viewmatRequiresGrad = false →
      (ProjectGaussians.backward bkernel vgrad ctx
        v_xys v_depths v_radii v_conics v_compensation v_numTilesHit).v_viewmat = none) := by
  constructor
  · intro h
    refine ⟨vgrad ctx v_xys v_depths v_conics v_compensation
      (bkernel ctx.numPoints ctx.means3d ctx.cov3dTriu ctx.viewmat ctx.fx ctx.fy
        ctx.cx ctx.cy ctx.imgHeight ctx.imgWidth ctx.radii ctx.conics
        ctx.compensation v_xys v_depths v_conics v_compensation), ?_⟩
    simp [ProjectGaussians.backward, h]
  · intro h
    simp [ProjectGaussians.backward, h]

/-- Evaluation of `viewmat_grad_optional` on a context that requires a
view-matrix gradient. -/
theorem viewmat_grad_optional_witness :
    ctxGradW.viewmatRequiresGrad = true ∧
    ∃ M : Mat4, (ProjectGaussians.backward trivBackward trivVGrad ctxGradW
      [] [] [] [] [] []).v_viewmat = some M :=
  ⟨rfl, (viewmat_grad_optional trivBackward trivVGrad ctxGradW
    [] [] [] [] [] []).1 rfl⟩

/-- Claim C3: when the number of points is below 1 or the last dimension of
`means3d` is not 3, the forward entry fails with an error of the
InvalidInput kind carrying the offending shape — and it does so for every
kernel, so no per-primitive computation runs and no output is produced. -/
theorem bad_means3d_shape_rejected (means3d : PyTensor)
    (hrank : 2 ≤ means3d.shape.length)
    (hbad : means3d.shape.getD (means3d.shape.length - 2) 0 < 1 ∨
      means3d.shape.getD (means3d.shape.length - 1) 0 ≠ 3) :
    ∀ (kernel : ForwardKernel) (cov3dTriu : List Triu6) (viewmat : Mat4)
      (fx fy cx cy : ℚ) (ih iw bw : ℕ) (clip : ℚ),
      ProjectGaussians.forward kernel means3d cov3dTriu viewmat fx fy cx cy
          ih iw bw clip =
        .error (.valueError means3d.shape) := by
  intro kernel cov3dTriu viewmat fx fy cx cy ih iw bw clip
  simp only [ProjectGaussians.forward, if_pos hrank, if_pos hbad]

/-- Evaluation of `bad_means3d_shape_rejected` on a `[2, 4]`-shaped tensor. -/
theorem bad_means3d_shape_rejected_witness :
    2 ≤ (PyTensor.mk [2, 4] []).shape.length ∧
    ((PyTensor.mk [2, 4] []).shape.getD 0 0 < 1 ∨
      (PyTensor.mk [2, 4] []).shape.getD 1 0 ≠ 3) ∧
    ProjectGaussians.forward trivForward ⟨[2, 4], []⟩ [] (fun _ _ => 0)
        1 1 0 0 16 16 16 (1 / 100) =
      .error (.valueError [2, 4]) :=
  ⟨by decide, by decide,
    bad_means3d_shape_rejected ⟨[2, 4], []⟩ (by decide) (by decide)
      trivForward [] (fun _ _ => 0) 1 1 0 0 16 16 16 (1 / 100)⟩

/-- Claim C2: with `block_width` equal to 1, 17, or any value outside
`[2, 16]`, both forward entry points fail with an InvalidInput-kind error:
`project_gaussians` via its assert (for any kernel and builder), and
`project_gaussians_given_cov3d` via the eager check of the CUDA forward
entry as modelled from the spec. -/
theorem block_width_out_of_range_rejected (bw : ℕ)
    (hbw : bw = 1 ∨ bw = 17 ∨ bw < 2 ∨ 16 < bw)
    (kernel : ForwardKernel) (builder : Builder) (means3d : PyTensor)
    (scales : List Vec3) (globScale : ℚ) (quats : List Vec4)
    (cov3d : List Mat3) (viewmat : Mat4) (fx fy cx cy : ℚ) (ih iw : ℕ)
    (clip : ℚ) (hrank : 2 ≤ means3d.shape.length) :
    (∃ e, project_gaussians kernel builder means3d scales globScale quats
        viewmat fx fy cx cy ih iw bw clip = .error e ∧
      e.isInvalidInput = true) ∧
    (∃ e, project_gaussians_given_cov3d cudaForwardKernel means3d cov3d
        viewmat fx fy cx cy ih iw bw clip = .error e ∧
      e.isInvalidInput = true) := by
  have hcond : ¬ (1 < bw ∧ bw ≤ 16) := by omega
  have hbw2 : bw < 2 ∨ 16 < bw := by omega
  constructor
  · refine ⟨.assertionError "block_width must be between 2 and 16", ?_, rfl⟩
    simp only [project_gaussians, if_pos hcond]
  · by_cases hsh : means3d.shape.getD (means3d.shape.length - 2) 0 < 1 ∨
      means3d.shape.getD (means3d.shape.length - 1) 0 ≠ 3
    · refine ⟨.valueError means3d.shape, ?_, rfl⟩
      simp only [project_gaussians_given_cov3d, ProjectGaussians.forward,
        if_pos hrank, if_pos hsh]
      rfl
    · refine ⟨.invalidInput "block_width out of range", ?_, rfl⟩
      simp only [project_gaussians_given_cov3d, ProjectGaussians.forward,
        if_pos hrank, if_neg hsh, cudaForwardKernel]
      rw [if_pos hbw2]
      rfl

/-- Evaluation of `block_width_out_of_range_rejected` at `block_width = 17`. -/
theorem block_width_out_of_range_rejected_witness :
    ((17 : ℕ) = 1 ∨ (17 : ℕ) = 17 ∨ (17 : ℕ) < 2 ∨ 16 < (17 : ℕ)) ∧
    2 ≤ (PyTensor.mk [1, 3] [0, 0, 0]).shape.length ∧
    ((∃ e, project_gaussians trivForward trivBuilder ⟨[1, 3], [0, 0, 0]⟩
        [] 1 [] (fun _ _ => 0) 1 1 0 0 16 16 17 (1 / 100) = .error e ∧
      e.isInvalidInput = true) ∧
    (∃ e, project_gaussians_given_cov3d cudaForwardKernel ⟨[1, 3], [0, 0, 0]⟩
        [] (fun _ _ => 0) 1 1 0 0 16 16 17 (1 / 100) = .error e ∧
      e.isInvalidInput = true)) :=
  ⟨by decide, by decide,
    block_width_out_of_range_rejected 17 (by decide) trivForward trivBuilder
      ⟨[1, 3], [0, 0, 0]⟩ [] 1 [] [] (fun _ _ => 0) 1 1 0 0 16 16 (1 / 100)
      (by decide)⟩

/-- A quaternion of norm 1/2 — far from unit norm on the low side. -/
def badQuat : Vec4 := ![1 / 2, 0, 0, 0]

/-- Claim C1 is violated by the code: the source's quaternion assert is
one-sided (`quats.norm(dim=-1) - 1 < 1e-6`), so a quaternion whose norm is
1/2 — differing from 1 by far more than 1e-6 — passes the check and the
call proceeds straight to the covariance build and projection instead of
failing with an InvalidInput error, for every kernel and builder. -/
theorem quat_check_one_sided (kernel : ForwardKernel) (builder : Builder)
    (means3d : PyTensor) (scales : List Vec3) (globScale : ℚ)
    (viewmat : Mat4) (fx fy cx cy : ℚ) (ih iw : ℕ) (clip : ℚ) :
    project_gaussians kernel builder means3d scales globScale [badQuat]
        viewmat fx fy cx cy ih iw 16 clip =
      project_gaussians_given_cov3d kernel means3d
        (builder scales globScale [badQuat])
        viewmat fx fy cx cy ih iw 16 clip := by
  have hb : ¬ ¬ ((1 : ℕ) < 16 ∧ (16 : ℕ) ≤ 16) := by decide
  have hq : ¬ ¬ (quatNormCheck [badQuat] = true) := by
    norm_num [quatNormCheck, badQuat]
  simp only [project_gaussians, if_neg hb, if_neg hq]

/-- Claim C7: a valid call to `project_gaussians` behaves exactly as
`project_gaussians_given_cov3d` applied to the covariance built by the
covariance builder from scale, global scale and quaternion, and whenever
it succeeds, the last element of the returned tuple is that built
covariance. -/
theorem project_gaussians_builds_cov3d_first
    (kernel : ForwardKernel) (builder : Builder) (means3d : PyTensor)
    (scales : List Vec3) (globScale : ℚ) (quats : List Vec4) (viewmat : Mat4)
    (fx fy cx cy : ℚ) (ih iw bw : ℕ) (clip : ℚ)
    (hbw : 1 < bw ∧ bw ≤ 16) (hq : quatNormCheck quats = true) :
    project_gaussians kernel builder means3d scales globScale quats viewmat
        fx fy cx cy ih iw bw clip =
      project_gaussians_given_cov3d kernel means3d
        (builder scales globScale quats) viewmat fx fy cx cy ih iw bw clip ∧
    ∀ outs cov,
      project_gaussians kernel builder means3d scales globScale quats viewmat
          fx fy cx cy ih iw bw clip = .ok (outs, cov) →
      cov = builder scales globScale quats := by
  have heq : project_gaussians kernel builder means3d scales globScale quats
      viewmat fx fy cx cy ih iw bw clip =
      project_gaussians_given_cov3d kernel means3d
        (builder scales globScale quats) viewmat fx fy cx cy ih iw bw clip := by
    simp only [project_gaussians, if_neg (not_not.mpr hbw),
      if_neg (not_not.mpr hq)]
  refine ⟨heq, ?_⟩
  intro outs cov h
  rw [heq] at h
  unfold project_gaussians_given_cov3d at h
  rcases hF : ProjectGaussians.forward kernel means3d
      ((builder scales globScale quats).map pack_cov3d_triu) viewmat
      fx fy cx cy ih iw bw clip with e | o
  · simp [hF, Except.map] at h
  · simp only [hF, Except.map, Except.ok.injEq, Prod.mk.injEq] at h
    exact h.2.symm

/-- Evaluation of `project_gaussians_builds_cov3d_first` on a concrete valid
call. -/
theorem project_gaussians_builds_cov3d_first_witness :
    ((1 : ℕ) < 16 ∧ (16 : ℕ) ≤ 16) ∧
    quatNormCheck [![1, 0, 0, 0]] = true ∧
    (project_gaussians trivForward trivBuilder ⟨[1, 3], [0, 0, 0]⟩
        [![1, 1, 1]] 1 [![1, 0, 0, 0]] (fun _ _ => 0) 1 1 0 0 16 16 16
        (1 / 100) =
      project_gaussians_given_cov3d trivForward ⟨[1, 3], [0, 0, 0]⟩
        (trivBuilder [![1, 1, 1]] 1 [![1, 0, 0, 0]]) (fun _ _ => 0)
        1 1 0 0 16 16 16 (1 / 100) ∧
    ∀ outs cov,
      project_gaussians trivForward trivBuilder ⟨[1, 3], [0, 0, 0]⟩
          [![1, 1, 1]] 1 [![1, 0, 0, 0]] (fun _ _ => 0) 1 1 0 0 16 16 16
          (1 / 100) = .ok (outs, cov) →
      cov = trivBuilder [![1, 1, 1]] 1 [![1, 0, 0, 0]]) :=
  ⟨by decide, by norm_num [quatNormCheck],
    project_gaussians_builds_cov3d_first trivForward trivBuilder
      ⟨[1, 3], [0, 0, 0]⟩ [![1, 1, 1]] 1 [![1, 0, 0, 0]] (fun _ _ => 0)
      1 1 0 0 16 16 16 (1 / 100) (by decide) (by norm_num [quatNormCheck])⟩

/-- Two 3×3 matrices agree on the upper triangle, diagonal included. -/
def upperAgree (A B : Mat3) : Prop :=
  ∀ i j : Fin 3, i ≤ j → A i j = B i j

instance (A B : Mat3) : Decidable (upperAgree A B) := by
  unfold upperAgree
  infer_instance

/-- Matrices agreeing on the upper triangle pack identically. -/
theorem pack_eq_of_upperAgree {A B : Mat3} (h : upperAgree A B) :
    pack_cov3d_triu A = pack_cov3d_triu B := by
  funext k
  fin_cases k <;> exact h _ _ (by decide)

/-- Claim C10: two calls to `project_gaussians_given_cov3d` whose covariance
batches agree entrywise on the upper triangle (diagonal included) but
differ arbitrarily in the strictly-lower-triangular entries produce
identical projection outputs, for every kernel — the lower triangle never
influences the result. -/
theorem lower_triangle_irrelevant (kernel : ForwardKernel) (means3d : PyTensor)
    (viewmat : Mat4) (fx fy cx cy : ℚ) (ih iw bw : ℕ) (clip : ℚ)
    (cov1 cov2 : List Mat3) (h : List.Forall₂ upperAgree cov1 cov2) :
    (project_gaussians_given_cov3d kernel means3d cov1 viewmat fx fy cx cy
        ih iw bw clip).map Prod.fst =
      (project_gaussians_given_cov3d kernel means3d cov2 viewmat fx fy cx cy
        ih iw bw clip).map Prod.fst := by
  have hpack : cov1.map pack_cov3d_triu = cov2.map pack_cov3d_triu := by
    induction h with
    | nil => rfl
    | cons hab _ ih => simp [pack_eq_of_upperAgree hab, ih]
  unfold project_gaussians_given_cov3d
  rw [hpack]
  rcases hF : ProjectGaussians.forward kernel means3d (cov2.map pack_cov3d_triu)
    viewmat fx fy cx cy ih iw bw clip with e | o <;>
    simp [hF, Except.map]

/-- Evaluation of `lower_triangle_irrelevant` on two concrete covariances
differing only below the diagonal. -/
theorem lower_triangle_irrelevant_witness :
    List.Forall₂ upperAgree [(![![1, 2, 3], ![7, 4, 5], ![8, 9, 6]] : Mat3)]
      [(![![1, 2, 3], ![0, 4, 5], ![0, 0, 6]] : Mat3)] ∧
    (project_gaussians_given_cov3d trivForward ⟨[1, 3], [0, 0, 0]⟩
        [![![1, 2, 3], ![7, 4, 5], ![8, 9, 6]]] (fun _ _ => 0) 1 1 0 0 16 16
        16 (1 / 100)).map Prod.fst =
      (project_gaussians_given_cov3d trivForward ⟨[1, 3], [0, 0, 0]⟩
        [![![1, 2, 3], ![0, 4, 5], ![0, 0, 6]]] (fun _ _ => 0) 1 1 0 0 16 16
        16 (1 / 100)).map Prod.fst :=
  ⟨List.Forall₂.cons (by decide) List.Forall₂.nil,
    lower_triangle_irrelevant trivForward ⟨[1, 3], [0, 0, 0]⟩ (fun _ _ => 0)
      1 1 0 0 16 16 16 (1 / 100) _ _
      (List.Forall₂.cons (by decide) List.Forall₂.nil)⟩

/-- Claim C8: in the spec-modelled per-primitive projection, a primitive
whose camera-space depth is strictly below `clip_thresh` is culled —
radius 0 and zero tiles, with xy and depth still defined — and a primitive
whose depth is at least `clip_thresh` is not culled by this rule: it takes
the full EWA path. -/
theorem near_clip_culling (cam : SpecCamera) (mean : Vec3) (triu : Triu6) :
    ((transformPoint cam.viewmat mean) 2 < cam.clipThresh →
      (projectPrimitive cam mean triu).radius = 0 ∧
      (projectPrimitive cam mean triu).tiles = 0 ∧
      (projectPrimitive cam mean triu).xy =
        projectPix cam (transformPoint cam.viewmat mean) ∧
      (projectPrimitive cam mean triu).depth =
        (transformPoint cam.viewmat mean) 2) ∧
    (cam.clipThresh ≤ (transformPoint cam.viewmat mean) 2 →
      projectPrimitive cam mean triu =
        ewaBody cam (transformPoint cam.viewmat mean) triu) := by
  constructor
  · intro h
    simp [projectPrimitive, if_pos h]
  · intro h
    simp only [projectPrimitive, if_neg (not_lt.mpr h)]

/-- The identity view matrix. -/
def idView : Mat4 :=
  ![![1, 0, 0, 0], ![0, 1, 0, 0], ![0, 0, 1, 0], ![0, 0, 0, 1]]

/-- A concrete camera with near-clip threshold 1/100. -/
def camW : SpecCamera :=
  ⟨idView, 1, 1, 0, 0, 16, 16, 16, 1 / 100⟩

/-- Evaluation of `near_clip_culling` on a primitive at depth zero. -/
theorem near_clip_culling_witness :
    (transformPoint camW.viewmat ![0, 0, 0]) 2 < camW.clipThresh ∧
    ((projectPrimitive camW ![0, 0, 0] (fun _ => 0)).radius = 0 ∧
      (projectPrimitive camW ![0, 0, 0] (fun _ => 0)).tiles = 0 ∧
      (projectPrimitive camW ![0, 0, 0] (fun _ => 0)).xy =
        projectPix camW (transformPoint camW.viewmat ![0, 0, 0]) ∧
      (projectPrimitive camW ![0, 0, 0] (fun _ => 0)).depth =
        (transformPoint camW.viewmat ![0, 0, 0]) 2) :=
  ⟨by norm_num [transformPoint, camW, idView],
    (near_clip_culling camW ![0, 0, 0] (fun _ => 0)).1
      (by norm_num [transformPoint, camW, idView])⟩
